import Mathlib

/-!
Shallow embedding of the ZenMatrix backend (`src/server.js`, final revision:
the snapshot with role-aware ownership, lines 151-379 of the concatenated
file).  Express handlers become pure Lean functions over explicit stores;
the Prisma store becomes a `List`; JavaScript `undefined`/`null` become
`Option`; dates are kept abstract as the strings passed to `new Date`.
-/

namespace ZenMatrix

/-! ### Data model (prisma schema / migration) -/

/-- A user record as persisted by the credential store:
`User { id, email, password (bcrypt hash), role }`. -/
structure User where
  id : Nat
  email : String
  password : String
  role : String
  deriving Repr, DecidableEq

/-- The user view exposed by responses: the rest-destructuring
`const { password: userPassword, ...userWithoutPassword } = user` and the
listing's `include.user.select { id, email, role }` both expose exactly
these fields. -/
structure UserNoPassword where
  id : Nat
  email : String
  role : String
  deriving Repr, DecidableEq

/-- A task row per the migration `CREATE TABLE Task`.  Date columns are
modelled as the strings handed to `new Date(...)`; `NULL`able columns are
`Option`. -/
structure Task where
  id : Int
  proyecto : String
  responsable : String
  titulo : String
  descripcion : Option String
  fechaVencimiento : Option String
  fechaTerminada : Option String
  prioridad : String
  isCompleted : Bool
  createdAt : Int
  userId : Nat
  deriving Repr, DecidableEq

/-! ### JavaScript-value helpers -/

/-- Truthiness test used by `if (!titulo || ...)` on request-body strings:
`undefined` (here `none`) and the empty string are falsy. -/
def jsFalsyOptStr : Option String → Bool
  | none => true
  | some s => s == ""

/-- The guard pattern `if (x) { whereClause.f = ... }` on an optional string
query parameter: the value survives exactly when it is present and
non-empty. -/
def jsTruthyStrParam : Option String → Option String
  | none => none
  | some s => if s = "" then none else some s

/-- Value of the leading decimal-digit run of a character list, `none` when
there is no leading digit (`parseInt` returns `NaN` then). -/
def digitsVal (cs : List Char) : Option Nat :=
  let ds := cs.takeWhile Char.isDigit
  if ds.isEmpty then none
  else some (ds.foldl (fun acc c => acc * 10 + (c.toNat - 48)) 0)

/-- `parseInt(s)` in base 10: an optional sign followed by leading digits,
ignoring trailing garbage; `none` models `NaN`.  (Whitespace trimming and
the hexadecimal auto-radix of JavaScript are not modelled; no claim
depends on them.) -/
def jsParseIntStr (s : String) : Option Int :=
  match s.toList with
  | '-' :: cs => (digitsVal cs).map (fun n => -(n : Int))
  | '+' :: cs => (digitsVal cs).map (fun n => (n : Int))
  | cs => (digitsVal cs).map (fun n => (n : Int))

/-- `parseInt` applied to an optional query parameter; an absent parameter
gives `NaN`. -/
def jsParseInt : Option String → Option Int
  | none => none
  | some s => jsParseIntStr s

/-- `parseInt(x) || d`: both `NaN` and `0` are falsy and fall back to the
default. -/
def jsOrInt (v : Option Int) (d : Int) : Int :=
  match v with
  | none => d
  | some n => if n = 0 then d else n

/-- Substring containment, modelling the Prisma `{ contains: pat }`
predicate on a string column. -/
def strContains (hay pat : String) : Bool :=
  hay.toList.tails.any (fun suf => pat.toList.isPrefixOf suf)

/-- `{ contains: pat }` on a `NULL`able column: a `NULL` never matches. -/
def optContains (hay : Option String) (pat : String) : Bool :=
  match hay with
  | none => false
  | some h => strContains h pat

/-! ### Registration and login (`/api/register`, `/api/login`) -/

/-- `const { password: userPassword, ...userWithoutPassword } = user`. -/
def userWithoutPassword (u : User) : UserNoPassword :=
  ⟨u.id, u.email, u.role⟩

/-- `prisma.user.findUnique({ where: { email } })`. -/
def findUserByEmail (users : List User) (e : String) : Option User :=
  users.find? (fun u => u.email == e)

/-- `prisma.user.findUnique({ where: { id } })`. -/
def findUserById (users : List User) (i : Nat) : Option User :=
  users.find? (fun u => u.id == i)

inductive RegisterResult where
  | err : Nat → String → RegisterResult
  | ok : Nat → String → UserNoPassword → RegisterResult
  deriving Repr, DecidableEq

/-- The `/api/register` handler (final revision): validates presence of
email and password, rejects an existing email with 409, hashes the
password and persists the new user with `role: "USER"`, then responds with
the user minus its password.  `hash` abstracts `bcrypt.hash`; `freshId`
is the server-assigned id. -/
def register (users : List User) (hash : String → String) (freshId : Nat)
    (email password : Option String) : RegisterResult × List User :=
  match email, password with
  | some e, some pw =>
    if (e == "") || (pw == "") then
      (.err 400 "Email y contraseña son obligatorios.", users)
    else
      match findUserByEmail users e with
      | some _ => (.err 409 "El email ya está registrado.", users)
      | none =>
        let newUser : User := ⟨freshId, e, hash pw, "USER"⟩
        (.ok 201 "Usuario registrado exitosamente" (userWithoutPassword newUser),
         users ++ [newUser])
  | _, _ => (.err 400 "Email y contraseña son obligatorios.", users)

/-- The payload signed into the session token:
`jwt.sign({ userId: user.id, role: user.role }, ...)`. -/
structure Payload where
  userId : Nat
  role : String
  deriving Repr, DecidableEq

inductive LoginResult where
  | err : Nat → String → LoginResult
  | ok : Nat → String → Payload → UserNoPassword → LoginResult
  deriving Repr, DecidableEq

/-- The `/api/login` handler: validates presence, looks the user up by
email (absent: 401), compares the password against the stored hash
(mismatch: 401 with the same body), else responds 200 with a token and the
user minus its password.  `compare` abstracts `bcrypt.compare`; the signed
token is modelled by its payload. -/
def login (users : List User) (compare : String → String → Bool)
    (email password : Option String) : LoginResult :=
  match email, password with
  | some e, some pw =>
    if (e == "") || (pw == "") then
      .err 400 "Email y contraseña son obligatorios."
    else
      match findUserByEmail users e with
      | none => .err 401 "Credenciales inválidas."
      | some u =>
        if compare pw u.password then
          .ok 200 "Inicio de sesión exitoso" ⟨u.id, u.role⟩ (userWithoutPassword u)
        else
          .err 401 "Credenciales inválidas."
  | _, _ => .err 400 "Email y contraseña son obligatorios."

/-! ### Authentication middleware (`authenticateToken`) -/

inductive AuthResult where
  | err401 : AuthResult
  | err403 : AuthResult
  | err404 : AuthResult
  | ok : Nat → String → AuthResult
  deriving Repr, DecidableEq

/-- Helper for `String.prototype.split(' ')`: splits a character list at
every space, keeping empty pieces, accumulating the current piece in
reverse. -/
def splitWordsAux : List Char → List Char → List (List Char)
  | [], acc => [acc.reverse]
  | c :: cs, acc =>
    if c = ' ' then acc.reverse :: splitWordsAux cs []
    else splitWordsAux cs (c :: acc)

/-- `s.split(' ')`: e.g. `"a b".split(' ') = ["a","b"]`,
`"".split(' ') = [""]`. -/
def jsSplitSpace (s : String) : List String :=
  (splitWordsAux s.toList []).map (fun cs => ⟨cs⟩)

/-- `const token = authHeader && authHeader.split(' ')[1]` followed by the
`token == null` test: an absent header gives `undefined` (`none`); an
empty header is falsy, so `&&` returns the empty string itself, which is
NOT `== null`; otherwise the token is the second space-separated word,
`undefined` (`none`) when there is none. -/
def tokenOf (authHeader : Option String) : Option String :=
  match authHeader with
  | none => none
  | some h => if h = "" then some "" else (jsSplitSpace h)[1]?

/-- The `authenticateToken` middleware (final revision): 401 when the
extracted token is `== null`; 403 when `jwt.verify` fails; 404 when the
payload's user is not in the store; otherwise attaches
`{ userId: user.id, role: user.role }` from the stored user and proceeds.
`verify` abstracts `jwt.verify`, returning `none` on any verification
failure. -/
def authenticateToken (verify : String → Option Payload) (users : List User)
    (authHeader : Option String) : AuthResult :=
  match tokenOf authHeader with
  | none => .err401
  | some tok =>
    match verify tok with
    | none => .err403
    | some p =>
      match findUserById users p.userId with
      | none => .err404
      | some u => .ok u.id u.role

/-! ### Task creation (`POST /api/tasks`, final revision) -/

structure CreateBody where
  proyecto : Option String
  responsable : Option String
  titulo : Option String
  descripcion : Option String
  fechaVencimiento : Option String
  prioridad : Option String
  deriving Repr, DecidableEq

inductive CreateResult where
  | err : Nat → String → CreateResult
  | created : Task → CreateResult
  deriving Repr, DecidableEq

/-- `fechaVencimiento ? new Date(fechaVencimiento) : undefined`: a falsy
value (absent or empty) yields `undefined` (skip the column), otherwise
the parsed date; `new Date` is modelled as the identity on the string. -/
def parsedFechaVencimiento (v : Option String) : Option String :=
  match v with
  | none => none
  | some s => if s = "" then none else some s

/-- The `POST /api/tasks` handler body after authentication: missing/empty
`titulo`, `proyecto`, `responsable` or `prioridad` yields 400 with no
write; otherwise a row is appended with `userId` taken from the
authenticated caller.  `freshId` is the auto-increment id; `createdAt` is
the server clock, fixed to 0 here (no claim depends on it). -/
def createTask (store : List Task) (callerId : Nat) (freshId : Int)
    (b : CreateBody) : CreateResult × List Task :=
  if jsFalsyOptStr b.titulo || jsFalsyOptStr b.proyecto ||
     jsFalsyOptStr b.responsable || jsFalsyOptStr b.prioridad then
    (.err 400 "Faltan campos obligatorios: titulo, proyecto, responsable, prioridad.",
     store)
  else
    let t : Task :=
      { id := freshId
        proyecto := b.proyecto.getD ""
        responsable := b.responsable.getD ""
        titulo := b.titulo.getD ""
        descripcion := b.descripcion
        fechaVencimiento := parsedFechaVencimiento b.fechaVencimiento
        fechaTerminada := none
        prioridad := b.prioridad.getD ""
        isCompleted := false
        createdAt := 0
        userId := callerId }
    (.created t, store ++ [t])

/-! ### Task update and delete (`PUT`/`DELETE /api/tasks/:id`) -/

/-- A request body for `PUT /api/tasks/:id`.  `fechaTerminada` is
three-valued in JavaScript: absent (`none`), explicit `null`
(`some none`), or a string (`some (some s)`). -/
structure UpdateBody where
  proyecto : Option String
  responsable : Option String
  titulo : Option String
  descripcion : Option String
  fechaVencimiento : Option String
  fechaTerminada : Option (Option String)
  prioridad : Option String
  isCompleted : Option Bool
  deriving Repr, DecidableEq

/-- `fechaTerminada ? new Date(fechaTerminada) : null`: every falsy value
(absent, `null`, empty string) yields `null` — never `undefined` — while a
non-empty string yields the parsed date.  The result is the value written
to the column: `none` sets it to `NULL`. -/
def parsedFechaTerminada (v : Option (Option String)) : Option String :=
  match v with
  | some (some s) => if s = "" then none else some s
  | some none => none
  | none => none

/-- The effect of `prisma.task.update`'s `data` object on a row: a field
passed as `undefined` is left unchanged, a present value overwrites;
`fechaTerminada` is always written (with `NULL` when the parsed value is
`null`), because `parsedFechaTerminada` never produces `undefined`. -/
def applyUpdate (b : UpdateBody) (t : Task) : Task :=
  { t with
    proyecto := b.proyecto.getD t.proyecto
    responsable := b.responsable.getD t.responsable
    titulo := b.titulo.getD t.titulo
    descripcion := match b.descripcion with
      | none => t.descripcion
      | some s => some s
    fechaVencimiento := match parsedFechaVencimiento b.fechaVencimiento with
      | none => t.fechaVencimiento
      | some d => some d
    fechaTerminada := parsedFechaTerminada b.fechaTerminada
    prioridad := b.prioridad.getD t.prioridad
    isCompleted := b.isCompleted.getD t.isCompleted }

/-- The `where` object of the update/delete calls:
`{ id: parseInt(id) }`, plus `userId` when the caller is not ADMIN. -/
structure TaskWhere where
  id : Int
  userId : Option Nat
  deriving Repr, DecidableEq

/-- `const taskWhereClause = { id: parseInt(id) };
if (role !== 'ADMIN') { taskWhereClause.userId = userId; }`. -/
def updDelWhere (role : String) (callerId : Nat) (idNum : Int) : TaskWhere :=
  { id := idNum
    userId := if role = "ADMIN" then none else some callerId }

/-- Row selection by the update/delete `where` object. -/
def matchesTaskWhere (w : TaskWhere) (t : Task) : Bool :=
  t.id == w.id &&
    (match w.userId with
     | none => true
     | some u => t.userId == u)

inductive UpdDelResult where
  | ok200 : Task → UpdDelResult
  | notFound404 : UpdDelResult
  | no204 : UpdDelResult
  deriving Repr, DecidableEq

/-- The `PUT /api/tasks/:id` handler after authentication: `idNum` is the
already-parsed `parseInt(req.params.id)`.  When no row matches the `where`
object Prisma throws `P2025`, which the catch block maps to 404 with the
store untouched; otherwise the matching row is rewritten by the `data`
object and returned with 200. -/
def updateTask (store : List Task) (role : String) (callerId : Nat)
    (idNum : Int) (b : UpdateBody) : UpdDelResult × List Task :=
  let w := updDelWhere role callerId idNum
  match store.find? (fun t => matchesTaskWhere w t) with
  | none => (.notFound404, store)
  | some t =>
    (.ok200 (applyUpdate b t),
     store.map (fun s => if matchesTaskWhere w s then applyUpdate b s else s))

/-- The `DELETE /api/tasks/:id` handler after authentication: same `where`
object; `P2025` maps to 404, success removes the row and responds 204. -/
def deleteTask (store : List Task) (role : String) (callerId : Nat)
    (idNum : Int) : UpdDelResult × List Task :=
  let w := updDelWhere role callerId idNum
  match store.find? (fun t => matchesTaskWhere w t) with
  | none => (.notFound404, store)
  | some _ => (.no204, store.filter (fun s => !matchesTaskWhere w s))

/-! ### Task listing (`GET /api/tasks`, final revision) -/

structure ListParams where
  search : Option String
  priority : Option String
  isCompleted : Option String
  proyecto : Option String
  sortBy : Option String
  sortDirection : Option String
  page : Option String
  limit : Option String
  deriving Repr, DecidableEq

/-- The dynamically built `whereClause` object. -/
structure WhereClause where
  userId : Option Nat
  searchTerm : Option String
  prioridad : Option String
  isCompleted : Option Bool
  proyectoContains : Option String
  deriving Repr, DecidableEq

/-- Construction of `whereClause` from the caller and query parameters:
ownership for non-ADMIN callers, then `search` (an OR over
titulo/descripcion contains), `priority` (exact), `isCompleted`
(`isCompleted === 'true'` when the parameter is present and non-empty),
`proyecto` (contains). -/
def buildWhere (role : String) (uid : Nat) (p : ListParams) : WhereClause :=
  { userId := if role = "ADMIN" then none else some uid
    searchTerm := jsTruthyStrParam p.search
    prioridad := jsTruthyStrParam p.priority
    isCompleted := match p.isCompleted with
      | none => none
      | some s => if s = "" then none else some (s == "true")
    proyectoContains := jsTruthyStrParam p.proyecto }

/-- Evaluation of the `whereClause` on a row: all present conditions are
conjoined; the search term is a disjunction over titulo and descripcion. -/
def matchesWhere (w : WhereClause) (t : Task) : Bool :=
  (match w.userId with
   | none => true
   | some u => t.userId == u) &&
  (match w.searchTerm with
   | none => true
   | some s => strContains t.titulo s || optContains t.descripcion s) &&
  (match w.prioridad with
   | none => true
   | some pr => t.prioridad == pr) &&
  (match w.isCompleted with
   | none => true
   | some b => t.isCompleted == b) &&
  (match w.proyectoContains with
   | none => true
   | some s => strContains t.proyecto s)

/-- `const pageNum = parseInt(page) || 1`. -/
def pageNumOf (p : ListParams) : Int :=
  jsOrInt (jsParseInt p.page) 1

/-- `const limitNum = parseInt(limit) || 10`. -/
def limitNumOf (p : ListParams) : Int :=
  jsOrInt (jsParseInt p.limit) 10

/-- `const skip = (pageNum - 1) * limitNum`. -/
def skipOf (p : ListParams) : Int :=
  (pageNumOf p - 1) * limitNumOf p

/-- `Math.ceil(a / b)` for a non-negative numerator and non-zero integer
denominator, computed exactly on integers.  (`b = 0` is unreachable: the
`|| 10` fallback makes the limit non-zero.) -/
def jsCeilDiv (a : Nat) (b : Int) : Int :=
  if 0 < b then (((a + b.toNat - 1) / b.toNat : Nat) : Int)
  else if b < 0 then -(((a / b.natAbs : Nat) : Int))
  else 0

/-- The `GET /api/tasks` 200 response body
`{ tasks, totalCount, currentPage, limit, totalPages }`; each task carries
its included owner `{ id, email, role }`. -/
structure ListResponse where
  tasks : List (Task × Option UserNoPassword)
  totalCount : Nat
  currentPage : Int
  limit : Int
  totalPages : Int
  deriving Repr, DecidableEq

/-- `include: { user: { select: { id: true, email: true, role: true } } }`. -/
def ownerSelect (u : User) : UserNoPassword :=
  ⟨u.id, u.email, u.role⟩

/-- The `GET /api/tasks` handler after authentication.  `sortFn` abstracts
the `orderBy` clause (the dynamic `{ [sortBy]: sortDirection }` key): the
database reorders the matching rows, then `skip`/`take` select the page.
`totalCount` is `prisma.task.count` with the same `whereClause`,
`totalPages` is `Math.ceil(totalCount / limitNum)`. -/
def getTasks (sortFn : List Task → List Task) (users : List User)
    (store : List Task) (role : String) (uid : Nat) (p : ListParams) :
    ListResponse :=
  let w := buildWhere role uid p
  let matching := store.filter (fun t => matchesWhere w t)
  let totalCount := matching.length
  let tasksPage := ((sortFn matching).drop (skipOf p).toNat).take (limitNumOf p).toNat
  { tasks := tasksPage.map (fun t => (t, (findUserById users t.userId).map ownerSelect))
    totalCount := totalCount
    currentPage := pageNumOf p
    limit := limitNumOf p
    totalPages := jsCeilDiv totalCount (limitNumOf p) }

/-! ### The API as a transition system (for the role invariant) -/

inductive ApiCall where
  | registerC : Option String → Option String → ApiCall
  | loginC : Option String → Option String → ApiCall
  | createC : Option String → CreateBody → ApiCall
  | listC : Option String → ListParams → ApiCall
  | updateC : Option String → Int → UpdateBody → ApiCall
  | deleteC : Option String → Int → ApiCall

/-- The persistent state touched by the API: the credential store and the
task store, plus the auto-increment counters. -/
structure ApiState where
  users : List User
  tasks : List Task
  nextUserId : Nat
  nextTaskId : Int

/-- State effect of one API call.  Login and listing never write; task
endpoints first run `authenticateToken`; registration is the only endpoint
that writes to the credential store. -/
def stepState (hash : String → String) (verify : String → Option Payload)
    (s : ApiState) (c : ApiCall) : ApiState :=
  match c with
  | .registerC e pw =>
    { s with users := (register s.users hash s.nextUserId e pw).snd
             nextUserId := s.nextUserId + 1 }
  | .loginC _ _ => s
  | .createC auth b =>
    match authenticateToken verify s.users auth with
    | .ok uid _ =>
      { s with tasks := (createTask s.tasks uid s.nextTaskId b).snd
               nextTaskId := s.nextTaskId + 1 }
    | _ => s
  | .listC _ _ => s
  | .updateC auth idNum b =>
    match authenticateToken verify s.users auth with
    | .ok uid role => { s with tasks := (updateTask s.tasks role uid idNum b).snd }
    | _ => s
  | .deleteC auth idNum =>
    match authenticateToken verify s.users auth with
    | .ok uid role => { s with tasks := (deleteTask s.tasks role uid idNum).snd }
    | _ => s

/-! ### Claim C7: creation validation -/

/-- C7: for every task-creation request in which any of `titulo`,
`proyecto`, `responsable`, `prioridad` is missing or empty, the handler
responds 400 and the task store is unchanged. -/
theorem create_missing_required_field_yields_400_and_no_write
    (store : List Task) (callerId : Nat) (freshId : Int) (b : CreateBody)
    (h : jsFalsyOptStr b.titulo = true ∨ jsFalsyOptStr b.proyecto = true ∨
         jsFalsyOptStr b.responsable = true ∨ jsFalsyOptStr b.prioridad = true) :
    createTask store callerId freshId b =
      (CreateResult.err 400
        "Faltan campos obligatorios: titulo, proyecto, responsable, prioridad.",
       store) := by
  unfold createTask
  rcases h with h | h | h | h <;> simp [h]

/-- C7 witness: a creation request with no `titulo` is rejected and the
store stays empty. -/
theorem create_missing_required_field_witness :
    createTask [] 1 1 ⟨some "p", some "r", none, none, none, some "alta"⟩ =
      (CreateResult.err 400
        "Faltan campos obligatorios: titulo, proyecto, responsable, prioridad.",
       []) :=
  create_missing_required_field_yields_400_and_no_write [] 1 1
    ⟨some "p", some "r", none, none, none, some "alta"⟩ (Or.inl (by decide))

/-! ### Claim C9: login does not disclose which credential was wrong -/

/-- C9: a login with an unknown email and a login with a known email but a
non-matching password produce the identical response, status 401 with the
same error body. -/
theorem login_indistinguishable_unknown_email_wrong_password
    (users1 users2 : List User) (cmp1 cmp2 : String → String → Bool)
    (e1 p1 e2 p2 : String) (u : User)
    (he1 : e1 ≠ "") (hp1 : p1 ≠ "") (he2 : e2 ≠ "") (hp2 : p2 ≠ "")
    (h1 : findUserByEmail users1 e1 = none)
    (h2 : findUserByEmail users2 e2 = some u)
    (h3 : cmp2 p2 u.password = false) :
    login users1 cmp1 (some e1) (some p1) =
        LoginResult.err 401 "Credenciales inválidas." ∧
    login users2 cmp2 (some e2) (some p2) =
        LoginResult.err 401 "Credenciales inválidas." ∧
    login users1 cmp1 (some e1) (some p1) =
        login users2 cmp2 (some e2) (some p2) := by
  have l1 : login users1 cmp1 (some e1) (some p1) =
      LoginResult.err 401 "Credenciales inválidas." := by
    unfold login
    simp [he1, hp1, h1]
  have l2 : login users2 cmp2 (some e2) (some p2) =
      LoginResult.err 401 "Credenciales inválidas." := by
    unfold login
    simp [he2, hp2, h2, h3]
  exact ⟨l1, l2, l1.trans l2.symm⟩

/-- C9 witness: concrete instance — empty store with email `a@b` versus a
store holding `a@b` with an always-failing password comparison. -/
theorem login_indistinguishable_witness :
    login [] (fun _ _ => false) (some "a@b") (some "pw") =
        LoginResult.err 401 "Credenciales inválidas." ∧
    login [⟨1, "a@b", "hash", "USER"⟩] (fun _ _ => false)
        (some "a@b") (some "pw2") =
        LoginResult.err 401 "Credenciales inválidas." ∧
    login [] (fun _ _ => false) (some "a@b") (some "pw") =
        login [⟨1, "a@b", "hash", "USER"⟩] (fun _ _ => false)
          (some "a@b") (some "pw2") :=
  login_indistinguishable_unknown_email_wrong_password
    [] [⟨1, "a@b", "hash", "USER"⟩] (fun _ _ => false) (fun _ _ => false)
    "a@b" "pw" "a@b" "pw2" ⟨1, "a@b", "hash", "USER"⟩
    (by decide) (by decide) (by decide) (by decide)
    (by rfl) (by rfl) (by rfl)

/-! ### Claim C3: update frame semantics -/

/-- C3 counterexample: the claim says an update request that omits
`fechaTerminada` leaves the stored completion timestamp unchanged.  On a
task whose completion timestamp is set, an update whose body omits every
field clears it to `NULL`, because
`fechaTerminada ? new Date(fechaTerminada) : null` maps the absent field
to `null`, not `undefined`. -/
theorem omitting_fechaTerminada_clears_it_counterexample :
    (applyUpdate ⟨none, none, none, none, none, none, none, none⟩
      { id := 1, proyecto := "p", responsable := "r", titulo := "t",
        descripcion := none, fechaVencimiento := none,
        fechaTerminada := some "2024-01-01", prioridad := "alta",
        isCompleted := true, createdAt := 0, userId := 1 }).fechaTerminada
      = none ∧
    (applyUpdate ⟨none, none, none, none, none, none, none, none⟩
      { id := 1, proyecto := "p", responsable := "r", titulo := "t",
        descripcion := none, fechaVencimiento := none,
        fechaTerminada := some "2024-01-01", prioridad := "alta",
        isCompleted := true, createdAt := 0, userId := 1 }).fechaTerminada
      ≠ some "2024-01-01" := by
  constructor
  · rfl
  · decide

/-- C3 amended: fields other than `fechaTerminada` that are not supplied
leave the stored fields unchanged (an omitted or empty `fechaVencimiento`
also passes through as absent); but the stored completion timestamp is
overwritten on every update: it is cleared whenever `fechaTerminada` is
omitted, explicitly `null`, or empty — not only on an explicit `null` —
and set to the supplied date otherwise. -/
theorem update_frame_semantics (b : UpdateBody) (t : Task) :
    (b.proyecto = none → (applyUpdate b t).proyecto = t.proyecto) ∧
    (b.responsable = none → (applyUpdate b t).responsable = t.responsable) ∧
    (b.titulo = none → (applyUpdate b t).titulo = t.titulo) ∧
    (b.descripcion = none → (applyUpdate b t).descripcion = t.descripcion) ∧
    (b.prioridad = none → (applyUpdate b t).prioridad = t.prioridad) ∧
    (b.isCompleted = none → (applyUpdate b t).isCompleted = t.isCompleted) ∧
    (b.fechaVencimiento = none ∨ b.fechaVencimiento = some "" →
      (applyUpdate b t).fechaVencimiento = t.fechaVencimiento) ∧
    (b.fechaTerminada = none ∨ b.fechaTerminada = some none ∨
        b.fechaTerminada = some (some "") →
      (applyUpdate b t).fechaTerminada = none) ∧
    (∀ s, b.fechaTerminada = some (some s) → s ≠ "" →
      (applyUpdate b t).fechaTerminada = some s) := by
  refine ⟨?_, ?_, ?_, ?_, ?_, ?_, ?_, ?_, ?_⟩
  · intro h; simp [applyUpdate, h]
  · intro h; simp [applyUpdate, h]
  · intro h; simp [applyUpdate, h]
  · intro h; simp [applyUpdate, h]
  · intro h; simp [applyUpdate, h]
  · intro h; simp [applyUpdate, h]
  · rintro (h | h) <;> simp [applyUpdate, parsedFechaVencimiento, h]
  · rintro (h | h | h) <;> simp [applyUpdate, parsedFechaTerminada, h]
  · intro s h hs; simp [applyUpdate, parsedFechaTerminada, h, hs]

/-- C3 amended witness: a body that only sets the title keeps the other
fields and clears the completion timestamp. -/
theorem update_frame_semantics_witness :
    (applyUpdate ⟨none, none, some "nuevo", none, none, none, none, none⟩
      { id := 1, proyecto := "p", responsable := "r", titulo := "t",
        descripcion := none, fechaVencimiento := none,
        fechaTerminada := some "2024-01-01", prioridad := "alta",
        isCompleted := true, createdAt := 0, userId := 1 }).proyecto = "p" ∧
    (applyUpdate ⟨none, none, some "nuevo", none, none, none, none, none⟩
      { id := 1, proyecto := "p", responsable := "r", titulo := "t",
        descripcion := none, fechaVencimiento := none,
        fechaTerminada := some "2024-01-01", prioridad := "alta",
        isCompleted := true, createdAt := 0, userId := 1 }).fechaTerminada
      = none := by
  have h := update_frame_semantics
    ⟨none, none, some "nuevo", none, none, none, none, none⟩
    { id := 1, proyecto := "p", responsable := "r", titulo := "t",
      descripcion := none, fechaVencimiento := none,
      fechaTerminada := some "2024-01-01", prioridad := "alta",
      isCompleted := true, createdAt := 0, userId := 1 }
  exact ⟨h.1 rfl, h.2.2.2.2.2.2.2.1 (Or.inl rfl)⟩

/-! ### Claim C2: authentication middleware sequence -/

/-- C2 counterexample: an empty `Authorization` header carries no bearer
token, yet the middleware does not respond 401: `authHeader &&
authHeader.split(' ')[1]` evaluates to the empty string, which is not
`== null`, so the empty string is passed to `jwt.verify`, whose failure
yields 403. -/
theorem auth_empty_header_not_401_counterexample :
    authenticateToken (fun _ => none) [] (some "") = AuthResult.err403 ∧
    authenticateToken (fun _ => none) [] (some "") ≠ AuthResult.err401 := by
  constructor
  · rfl
  · decide

/-- C2 amended: the middleware responds 401 when the header is absent, or
is present, non-empty, and has no second space-separated word; an
empty-string header instead yields the empty string as the token, which
goes to verification (403 when verification fails); for any extracted
token, verification failure yields 403; a verified payload whose user is
not in the credential store yields 404; otherwise the middleware attaches
`{userId, role}` of the found user and proceeds. -/
theorem auth_middleware_sequence (verify : String → Option Payload)
    (users : List User) (h : Option String) :
    (h = none → authenticateToken verify users h = AuthResult.err401) ∧
    (∀ s, h = some s → s ≠ "" → (jsSplitSpace s)[1]? = none →
      authenticateToken verify users h = AuthResult.err401) ∧
    (h = some "" → tokenOf h = some "") ∧
    (∀ tok, tokenOf h = some tok → verify tok = none →
      authenticateToken verify users h = AuthResult.err403) ∧
    (∀ tok p, tokenOf h = some tok → verify tok = some p →
      findUserById users p.userId = none →
      authenticateToken verify users h = AuthResult.err404) ∧
    (∀ tok p u, tokenOf h = some tok → verify tok = some p →
      findUserById users p.userId = some u →
      authenticateToken verify users h = AuthResult.ok u.id u.role) := by
  refine ⟨?_, ?_, ?_, ?_, ?_, ?_⟩
  · intro hh; subst hh; rfl
  · intro s hh hs hsplit
    subst hh
    simp [authenticateToken, tokenOf, hs, hsplit]
  · intro hh; subst hh; rfl
  · intro tok htok hver
    simp [authenticateToken, htok, hver]
  · intro tok p htok hver hfind
    simp [authenticateToken, htok, hver, hfind]
  · intro tok p u htok hver hfind
    simp [authenticateToken, htok, hver, hfind]

/-- C2 amended witness: a header with only the scheme word gives 401; a
header with a token not accepted by verification gives 403; a verified
token whose user is absent gives 404; and a verified token with a stored
user attaches that user's id and role. -/
theorem auth_middleware_sequence_witness :
    authenticateToken (fun _ => none) [] (some "Bearer") = AuthResult.err401 ∧
    authenticateToken (fun _ => none) [] (some "Bearer bad") = AuthResult.err403 ∧
    authenticateToken (fun _ => some ⟨9, "USER"⟩) [] (some "Bearer tok")
      = AuthResult.err404 ∧
    authenticateToken (fun _ => some ⟨9, "USER"⟩) [⟨9, "a@b", "h", "USER"⟩]
      (some "Bearer tok") = AuthResult.ok 9 "USER" := by
  refine ⟨?_, ?_, ?_, ?_⟩
  · exact (auth_middleware_sequence (fun _ => none) [] (some "Bearer")).2.1
      "Bearer" rfl (by decide) (by decide)
  · exact (auth_middleware_sequence (fun _ => none) [] (some "Bearer bad")).2.2.2.1
      "bad" (by decide) rfl
  · exact (auth_middleware_sequence (fun _ => some ⟨9, "USER"⟩) []
      (some "Bearer tok")).2.2.2.2.1 "tok" ⟨9, "USER"⟩ (by decide) rfl rfl
  · exact (auth_middleware_sequence (fun _ => some ⟨9, "USER"⟩)
      [⟨9, "a@b", "h", "USER"⟩] (some "Bearer tok")).2.2.2.2.2 "tok"
      ⟨9, "USER"⟩ ⟨9, "a@b", "h", "USER"⟩ (by decide) rfl (by decide)

/-! ### Claim C8: responses never carry the password hash -/

/-- C8: the user object in a successful registration response is exactly
`{id, email, role: "USER"}`; the registration response is independent of
the hashing function (hence of the stored hash); the user object in a
successful login response is exactly `{id, email, role}` of the stored
user; and every owner object embedded in a listing response is exactly
`{id, email, role}` of a stored user.  None of these carries a password
field. -/
theorem responses_omit_password_hash
    (users : List User) (hash : String → String) (freshId : Nat)
    (e pw : String) (cmp : String → String → Bool)
    (sortFn : List Task → List Task) (store : List Task)
    (role : String) (uid : Nat) (p : ListParams) :
    (∀ st m v, (register users hash freshId (some e) (some pw)).fst
        = RegisterResult.ok st m v → v = ⟨freshId, e, "USER"⟩) ∧
    (∀ hash2, (register users hash freshId (some e) (some pw)).fst
        = (register users hash2 freshId (some e) (some pw)).fst) ∧
    (∀ st m tk v, login users cmp (some e) (some pw) = LoginResult.ok st m tk v →
        ∃ u, findUserByEmail users e = some u ∧ v = ⟨u.id, u.email, u.role⟩) ∧
    (∀ t o, (t, some o) ∈ (getTasks sortFn users store role uid p).tasks →
        ∃ u, findUserById users t.userId = some u ∧ o = ⟨u.id, u.email, u.role⟩) := by
  refine ⟨?_, ?_, ?_, ?_⟩
  · intro st m v hok
    unfold register at hok
    by_cases hvalid : (e == "") || (pw == "")
    · simp [hvalid] at hok
    · cases hfind : findUserByEmail users e with
      | none => simp [hvalid, hfind, userWithoutPassword] at hok; exact hok.2.2.symm
      | some u0 => simp [hvalid, hfind] at hok
  · intro hash2
    unfold register
    by_cases hvalid : (e == "") || (pw == "")
    · simp [hvalid]
    · cases hfind : findUserByEmail users e with
      | none => simp [hvalid, hfind, userWithoutPassword]
      | some u0 => simp [hvalid, hfind]
  · intro st m tk v hok
    unfold login at hok
    by_cases hvalid : (e == "") || (pw == "")
    · simp [hvalid] at hok
    · cases hfind : findUserByEmail users e with
      | none => simp [hvalid, hfind] at hok
      | some u0 =>
        refine ⟨u0, rfl, ?_⟩
        by_cases hcmp : cmp pw u0.password
        · simp [hvalid, hfind, hcmp, userWithoutPassword] at hok
          obtain ⟨-, -, -, hv⟩ := hok
          first
            | exact hv
            | exact hv.symm
        · simp [hvalid, hfind, hcmp] at hok
  · intro t o hmem
    unfold getTasks at hmem
    simp only [List.mem_map] at hmem
    obtain ⟨t0, _, heq⟩ := hmem
    have ht : t0 = t := congrArg Prod.fst heq
    subst ht
    have ho : (findUserById users t0.userId).map ownerSelect = some o :=
      congrArg Prod.snd heq
    cases hfind : findUserById users t0.userId with
    | none => rw [hfind] at ho; simp at ho
    | some u0 =>
      rw [hfind] at ho
      exact ⟨u0, rfl, (Option.some_injective _ ho).symm⟩

/-- C8 witness: at a concrete successful registration, login and listing,
the exposed user objects consist of id, email and role only. -/
theorem responses_omit_password_hash_witness :
    (∀ st m v, (register [] (fun s => s) 1 (some "a@b") (some "pw")).fst
        = RegisterResult.ok st m v → v = ⟨1, "a@b", "USER"⟩) ∧
    (register [] (fun s => s) 1 (some "a@b") (some "pw")).fst
        = (register [] (fun _ => "other") 1 (some "a@b") (some "pw")).fst := by
  have h := responses_omit_password_hash [] (fun s => s) 1 "a@b" "pw"
    (fun _ _ => false) (fun l => l) [] "USER" 1
    ⟨none, none, none, none, none, none, none, none⟩
  exact ⟨h.1, h.2.1 (fun _ => "other")⟩

/-! ### Claim C10: no API sequence produces an ADMIN user -/

/-- Registration only ever appends a user whose role is `"USER"`. -/
theorem register_preserves_user_roles (users : List User)
    (hash : String → String) (freshId : Nat) (email password : Option String)
    (h : ∀ u ∈ users, u.role = "USER") :
    ∀ u ∈ (register users hash freshId email password).snd, u.role = "USER" := by
  intro u hu
  unfold register at hu
  cases email with
  | none => exact h u hu
  | some e =>
    cases password with
    | none => exact h u hu
    | some pw =>
      by_cases hvalid : ((e == "") || (pw == "")) = true
      · simp only [hvalid, if_true] at hu
        exact h u hu
      · simp only [hvalid, if_false, Bool.false_eq_true] at hu
        cases hfind : findUserByEmail users e with
        | some u0 => rw [hfind] at hu; exact h u hu
        | none =>
          rw [hfind] at hu
          simp only [List.mem_append, List.mem_singleton] at hu
          rcases hu with hu | hu
          · exact h u hu
          · rw [hu]

/-- A single API call never writes any role other than `"USER"` into the
credential store. -/
theorem stepState_preserves_user_roles (hash : String → String)
    (verify : String → Option Payload) (s : ApiState) (c : ApiCall)
    (h : ∀ u ∈ s.users, u.role = "USER") :
    ∀ u ∈ (stepState hash verify s c).users, u.role = "USER" := by
  cases c with
  | registerC e pw =>
    exact register_preserves_user_roles s.users hash s.nextUserId e pw h
  | loginC e pw => exact h
  | createC auth b =>
    simp only [stepState]
    cases authenticateToken verify s.users auth <;> exact h
  | listC auth p => exact h
  | updateC auth idNum b =>
    simp only [stepState]
    cases authenticateToken verify s.users auth <;> exact h
  | deleteC auth idNum =>
    simp only [stepState]
    cases authenticateToken verify s.users auth <;> exact h

/-- C10: every user created through registration is persisted with role
`"USER"`, and no sequence of API calls starting from a store whose users
all have role `"USER"` (in particular the empty store) ever produces a
user with the ADMIN role. -/
theorem no_api_sequence_creates_admin (hash : String → String)
    (verify : String → Option Payload) (calls : List ApiCall) (s0 : ApiState)
    (h0 : ∀ u ∈ s0.users, u.role = "USER") :
    (∀ u ∈ (calls.foldl (stepState hash verify) s0).users, u.role = "USER") ∧
    (∀ u ∈ (calls.foldl (stepState hash verify) s0).users, u.role ≠ "ADMIN") := by
  have main : ∀ (cs : List ApiCall) (s : ApiState),
      (∀ u ∈ s.users, u.role = "USER") →
      ∀ u ∈ (cs.foldl (stepState hash verify) s).users, u.role = "USER" := by
    intro cs
    induction cs with
    | nil => intro s hs; exact hs
    | cons c cs ih =>
      intro s hs
      exact ih (stepState hash verify s c)
        (stepState_preserves_user_roles hash verify s c hs)
  refine ⟨main calls s0 h0, ?_⟩
  intro u hu
  rw [main calls s0 h0 u hu]
  decide

/-- C10 witness: after a concrete registration on the empty store, the
stored user's role is `"USER"`, not `"ADMIN"`. -/
theorem no_api_sequence_creates_admin_witness :
    (⟨1, "a@b", "pw", "USER"⟩ : User).role = "USER" ∧
    (⟨1, "a@b", "pw", "USER"⟩ : User).role ≠ "ADMIN" := by
  have h := no_api_sequence_creates_admin (fun s => s) (fun _ => none)
    [ApiCall.registerC (some "a@b") (some "pw")] ⟨[], [], 1, 1⟩
    (by intro u hu; simp at hu)
  exact ⟨h.1 ⟨1, "a@b", "pw", "USER"⟩ (by decide),
         h.2 ⟨1, "a@b", "pw", "USER"⟩ (by decide)⟩

/-! ### Claim C1: ownership scoping of update, delete and listing -/

/-- C1: for a non-ADMIN caller, the update/delete row-selection predicate
rejects every task owned by someone else; when every task carrying the
requested id is owned by someone else, update and delete answer 404 and
leave the store unchanged; a task owned by someone else always survives in
the store; the listing never returns another user's task; and the ADMIN
row-selection predicate is the bare id condition, exempt from ownership. -/
theorem ownership_restricts_update_delete_list
    (sortFn : List Task → List Task) (users : List User) (store : List Task)
    (role : String) (callerId : Nat) (idNum : Int) (b : UpdateBody)
    (p : ListParams)
    (hrole : role ≠ "ADMIN")
    (hsort : ∀ (l : List Task) (t : Task), t ∈ sortFn l → t ∈ l) :
    (∀ t : Task, t.userId ≠ callerId →
      matchesTaskWhere (updDelWhere role callerId idNum) t = false) ∧
    ((∀ t ∈ store, t.id = idNum → t.userId ≠ callerId) →
      updateTask store role callerId idNum b = (UpdDelResult.notFound404, store) ∧
      deleteTask store role callerId idNum = (UpdDelResult.notFound404, store)) ∧
    (∀ t ∈ store, t.userId ≠ callerId →
      t ∈ (updateTask store role callerId idNum b).snd ∧
      t ∈ (deleteTask store role callerId idNum).snd) ∧
    (∀ t o, (t, o) ∈ (getTasks sortFn users store role callerId p).tasks →
      t.userId = callerId) ∧
    (∀ t : Task, matchesTaskWhere (updDelWhere "ADMIN" callerId idNum) t
      = (t.id == idNum)) := by
  have hfalse : ∀ t : Task, t.userId ≠ callerId →
      matchesTaskWhere (updDelWhere role callerId idNum) t = false := by
    intro t ht
    unfold matchesTaskWhere updDelWhere
    rw [if_neg hrole]
    simp [ht]
  refine ⟨hfalse, ?_, ?_, ?_, ?_⟩
  · intro hall
    have hnone : store.find?
        (fun t => matchesTaskWhere (updDelWhere role callerId idNum) t) = none := by
      rw [List.find?_eq_none]
      intro t htmem
      by_cases hid : t.id = idNum
      · simp [hfalse t (hall t htmem hid)]
      · unfold matchesTaskWhere updDelWhere
        simp [hid]
    constructor
    · simp only [updateTask]
      rw [hnone]
    · simp only [deleteTask]
      rw [hnone]
  · intro t htmem ht
    constructor
    · simp only [updateTask]
      cases hfind : List.find?
          (fun t => matchesTaskWhere (updDelWhere role callerId idNum) t) store with
      | none => exact htmem
      | some t0 =>
        refine List.mem_map.mpr ⟨t, htmem, ?_⟩
        simp [hfalse t ht]
    · simp only [deleteTask]
      cases hfind : List.find?
          (fun t => matchesTaskWhere (updDelWhere role callerId idNum) t) store with
      | none => exact htmem
      | some t0 =>
        refine List.mem_filter.mpr ⟨htmem, ?_⟩
        simp [hfalse t ht]
  · intro t o hmem
    unfold getTasks at hmem
    simp only [List.mem_map] at hmem
    obtain ⟨t0, ht0, heq⟩ := hmem
    have hteq : t0 = t := congrArg Prod.fst heq
    subst hteq
    have h1 : t0 ∈ (sortFn (store.filter
        (fun s => matchesWhere (buildWhere role callerId p) s))).drop
          (skipOf p).toNat :=
      List.mem_of_mem_take ht0
    have h2 : t0 ∈ sortFn (store.filter
        (fun s => matchesWhere (buildWhere role callerId p) s)) :=
      List.mem_of_mem_drop h1
    have h3 := hsort _ _ h2
    have h4 := (List.mem_filter.mp h3).2
    unfold matchesWhere buildWhere at h4
    rw [if_neg hrole] at h4
    simp only [Bool.and_eq_true, beq_iff_eq] at h4
    exact h4.1.1.1.1
  · intro t
    unfold matchesTaskWhere updDelWhere
    simp

/-- C1 witness: a non-ADMIN caller (id 2) against a store holding one task
with the requested id owned by user 7: update and delete answer 404 with
the store unchanged. -/
theorem ownership_restricts_witness :
    updateTask
      [{ id := 1, proyecto := "p", responsable := "r", titulo := "t",
         descripcion := none, fechaVencimiento := none, fechaTerminada := none,
         prioridad := "alta", isCompleted := false, createdAt := 0, userId := 7 }]
      "USER" 2 1 ⟨none, none, none, none, none, none, none, none⟩ =
      (UpdDelResult.notFound404,
       [{ id := 1, proyecto := "p", responsable := "r", titulo := "t",
          descripcion := none, fechaVencimiento := none, fechaTerminada := none,
          prioridad := "alta", isCompleted := false, createdAt := 0,
          userId := 7 }]) ∧
    deleteTask
      [{ id := 1, proyecto := "p", responsable := "r", titulo := "t",
         descripcion := none, fechaVencimiento := none, fechaTerminada := none,
         prioridad := "alta", isCompleted := false, createdAt := 0, userId := 7 }]
      "USER" 2 1 =
      (UpdDelResult.notFound404,
       [{ id := 1, proyecto := "p", responsable := "r", titulo := "t",
          descripcion := none, fechaVencimiento := none, fechaTerminada := none,
          prioridad := "alta", isCompleted := false, createdAt := 0,
          userId := 7 }]) := by
  have h := ownership_restricts_update_delete_list (fun l => l) []
    [{ id := 1, proyecto := "p", responsable := "r", titulo := "t",
       descripcion := none, fechaVencimiento := none, fechaTerminada := none,
       prioridad := "alta", isCompleted := false, createdAt := 0, userId := 7 }]
    "USER" 2 1 ⟨none, none, none, none, none, none, none, none⟩
    ⟨none, none, none, none, none, none, none, none⟩
    (by decide) (fun _ _ hh => hh)
  exact h.2.1 (by decide)

/-! ### Claim C4: pagination defaults, offset, totalPages -/

/-- C4: `page` defaults to 1 and `limit` defaults to 10 when the parameter
is missing or non-numeric; the row offset is `(page - 1) * limit`; no
upper bound is enforced on `limit` (any non-zero parsed value is used
as-is); `totalCount` is the pre-pagination count of rows matching the
filter; and `totalPages = ceil(totalCount / limit)`. -/
theorem pagination_defaults_offset_totalPages
    (sortFn : List Task → List Task) (users : List User) (store : List Task)
    (role : String) (uid : Nat) (p : ListParams) :
    (jsParseInt p.page = none → pageNumOf p = 1) ∧
    (jsParseInt p.limit = none → limitNumOf p = 10) ∧
    (skipOf p = (pageNumOf p - 1) * limitNumOf p) ∧
    (∀ v : Int, jsParseInt p.limit = some v → v ≠ 0 → limitNumOf p = v) ∧
    ((getTasks sortFn users store role uid p).totalCount =
      (store.filter (fun t => matchesWhere (buildWhere role uid p) t)).length) ∧
    (∀ L : Nat, 0 < L → limitNumOf p = (L : Int) →
      (getTasks sortFn users store role uid p).totalPages =
        ((((store.filter (fun t => matchesWhere (buildWhere role uid p) t)).length
          + L - 1) / L : Nat) : Int)) := by
  refine ⟨?_, ?_, rfl, ?_, rfl, ?_⟩
  · intro h; simp [pageNumOf, jsOrInt, h]
  · intro h; simp [limitNumOf, jsOrInt, h]
  · intro v hv hv0; simp [limitNumOf, jsOrInt, hv, hv0]
  · intro L hL hlim
    have hpos : (0 : Int) < (L : Int) := by exact_mod_cast hL
    simp only [getTasks, hlim, jsCeilDiv, if_pos hpos, Int.toNat_natCast]

/-- C4 witness: with `page` absent and `limit = "5"`, page is 1, the
limit is taken as 5 uncapped, the offset is 0, and on an empty store
`totalPages = ceil(0 / 5) = 0`. -/
theorem pagination_defaults_witness :
    pageNumOf ⟨none, none, none, none, none, none, none, some "5"⟩ = 1 ∧
    limitNumOf ⟨none, none, none, none, none, none, none, some "5"⟩ = 5 ∧
    skipOf ⟨none, none, none, none, none, none, none, some "5"⟩ =
      (pageNumOf ⟨none, none, none, none, none, none, none, some "5"⟩ - 1) *
        limitNumOf ⟨none, none, none, none, none, none, none, some "5"⟩ ∧
    (getTasks (fun l => l) [] [] "USER" 1
      ⟨none, none, none, none, none, none, none, some "5"⟩).totalPages = 0 := by
  have h := pagination_defaults_offset_totalPages (fun l => l) [] [] "USER" 1
    ⟨none, none, none, none, none, none, none, some "5"⟩
  refine ⟨h.1 rfl, h.2.2.2.1 5 (by decide) (by decide), h.2.2.1, ?_⟩
  have := h.2.2.2.2.2 5 (by decide) (h.2.2.2.1 5 (by decide) (by decide))
  rw [this]
  decide

/-! ### Claim C5: tri-state isCompleted filter -/

/-- C5: a listing with `isCompleted=true` returns only tasks whose
completed flag is true; `isCompleted=false`, or any other non-empty value,
returns only tasks whose completed flag is false; an absent or empty
parameter adds no completed-flag condition, so tasks of both states
match the filter identically. -/
theorem isCompleted_tristate_filter
    (sortFn : List Task → List Task) (users : List User) (store : List Task)
    (role : String) (uid : Nat) (p : ListParams)
    (hsort : ∀ (l : List Task) (t : Task), t ∈ sortFn l → t ∈ l) :
    (p.isCompleted = some "true" →
      ∀ t o, (t, o) ∈ (getTasks sortFn users store role uid p).tasks →
        t.isCompleted = true) ∧
    (∀ s, p.isCompleted = some s → s ≠ "" → s ≠ "true" →
      ∀ t o, (t, o) ∈ (getTasks sortFn users store role uid p).tasks →
        t.isCompleted = false) ∧
    ((p.isCompleted = none ∨ p.isCompleted = some "") →
      ∀ (t : Task) (c : Bool),
        matchesWhere (buildWhere role uid p) { t with isCompleted := c } =
          matchesWhere (buildWhere role uid p) t) := by
  have hmem : ∀ t o, (t, o) ∈ (getTasks sortFn users store role uid p).tasks →
      matchesWhere (buildWhere role uid p) t = true := by
    intro t o hmem
    unfold getTasks at hmem
    simp only [List.mem_map] at hmem
    obtain ⟨t0, ht0, heq⟩ := hmem
    have hteq : t0 = t := congrArg Prod.fst heq
    subst hteq
    have h1 : t0 ∈ (sortFn (store.filter
        (fun s => matchesWhere (buildWhere role uid p) s))).drop
          (skipOf p).toNat :=
      List.mem_of_mem_take ht0
    have h2 := List.mem_of_mem_drop h1
    exact (List.mem_filter.mp (hsort _ _ h2)).2
  refine ⟨?_, ?_, ?_⟩
  · intro hic t o hm
    have hicb : (buildWhere role uid p).isCompleted = some true := by
      simp [buildWhere, hic]
    have h4 := hmem t o hm
    unfold matchesWhere at h4
    rw [hicb] at h4
    simp only [Bool.and_eq_true] at h4
    simpa using h4.1.2
  · intro s hic hs hst t o hm
    have hicb : (buildWhere role uid p).isCompleted = some false := by
      simp [buildWhere, hic, hs, beq_eq_false_iff_ne, hst]
    have h4 := hmem t o hm
    unfold matchesWhere at h4
    rw [hicb] at h4
    simp only [Bool.and_eq_true] at h4
    simpa using h4.1.2
  · rintro (hic | hic) <;> intro t c <;>
      simp [matchesWhere, buildWhere, hic]

/-- C5 witness: with `isCompleted="true"`, a completed task is listed and
the uncompleted one is not visible in the result; with the parameter
absent, the filter ignores the flag. -/
theorem isCompleted_tristate_witness :
    (∀ t o, (t, o) ∈ (getTasks (fun l => l) []
        [{ id := 1, proyecto := "p", responsable := "r", titulo := "t",
           descripcion := none, fechaVencimiento := none, fechaTerminada := none,
           prioridad := "alta", isCompleted := true, createdAt := 0, userId := 1 },
         { id := 2, proyecto := "p", responsable := "r", titulo := "u",
           descripcion := none, fechaVencimiento := none, fechaTerminada := none,
           prioridad := "alta", isCompleted := false, createdAt := 0, userId := 1 }]
        "USER" 1
        ⟨none, none, some "true", none, none, none, none, none⟩).tasks →
      t.isCompleted = true) ∧
    matchesWhere (buildWhere "USER" 1
        ⟨none, none, none, none, none, none, none, none⟩)
      { id := 2, proyecto := "p", responsable := "r", titulo := "u",
        descripcion := none, fechaVencimiento := none, fechaTerminada := none,
        prioridad := "alta", isCompleted := true, createdAt := 0, userId := 1 } =
    matchesWhere (buildWhere "USER" 1
        ⟨none, none, none, none, none, none, none, none⟩)
      { id := 2, proyecto := "p", responsable := "r", titulo := "u",
        descripcion := none, fechaVencimiento := none, fechaTerminada := none,
        prioridad := "alta", isCompleted := false, createdAt := 0, userId := 1 } := by
  have h := isCompleted_tristate_filter (fun l => l) []
    [{ id := 1, proyecto := "p", responsable := "r", titulo := "t",
       descripcion := none, fechaVencimiento := none, fechaTerminada := none,
       prioridad := "alta", isCompleted := true, createdAt := 0, userId := 1 },
     { id := 2, proyecto := "p", responsable := "r", titulo := "u",
       descripcion := none, fechaVencimiento := none, fechaTerminada := none,
       prioridad := "alta", isCompleted := false, createdAt := 0, userId := 1 }]
    "USER" 1 ⟨none, none, some "true", none, none, none, none, none⟩
    (fun _ _ hh => hh)
  have h2 := isCompleted_tristate_filter (fun l => l) [] [] "USER" 1
    ⟨none, none, none, none, none, none, none, none⟩ (fun _ _ hh => hh)
  exact ⟨h.1 rfl,
    h2.2.2 (Or.inl rfl)
      { id := 2, proyecto := "p", responsable := "r", titulo := "u",
        descripcion := none, fechaVencimiento := none, fechaTerminada := none,
        prioridad := "alta", isCompleted := false, createdAt := 0, userId := 1 }
      true⟩

/-! ### Claim C6: filters combine by AND; ownership is never weakened -/

/-- C6: for a non-ADMIN caller the built `whereClause` always carries the
ownership condition (no supplied filter removes or weakens it), and a task
matches the clause exactly when it satisfies the conjunction of: the
ownership condition, the search disjunction (substring on titulo OR on
descripcion) when a search term is supplied, exact equality on prioridad
when a priority is supplied, the completed-flag condition when a non-empty
`isCompleted` is supplied, and substring containment on proyecto when a
`proyecto` is supplied. -/
theorem list_filters_conjoined_ownership_kept
    (role : String) (uid : Nat) (p : ListParams) (t : Task)
    (hrole : role ≠ "ADMIN") :
    (buildWhere role uid p).userId = some uid ∧
    (matchesWhere (buildWhere role uid p) t = true ↔
      t.userId = uid ∧
      (∀ s, jsTruthyStrParam p.search = some s →
        (strContains t.titulo s = true ∨ optContains t.descripcion s = true)) ∧
      (∀ s, jsTruthyStrParam p.priority = some s → t.prioridad = s) ∧
      (∀ s, p.isCompleted = some s → s ≠ "" → t.isCompleted = (s == "true")) ∧
      (∀ s, jsTruthyStrParam p.proyecto = some s →
        strContains t.proyecto s = true)) := by
  constructor
  · simp [buildWhere, hrole]
  · unfold matchesWhere buildWhere
    rw [if_neg hrole]
    cases hs : jsTruthyStrParam p.search <;>
      cases hpr : jsTruthyStrParam p.priority <;>
        cases hpj : jsTruthyStrParam p.proyecto <;>
          rcases hic : p.isCompleted with _ | s <;>
            simp [hs, hpr, hpj, hic, Bool.and_eq_true, Bool.or_eq_true,
              beq_iff_eq, and_assoc] <;>
              by_cases hse : s = "" <;>
                simp [hse, beq_iff_eq]

/-- C6 witness: concrete check for a non-ADMIN caller with a search term
and a priority filter: a task owned by the caller that contains the search
term in its title and carries the exact priority matches; the
`whereClause` keeps `userId = some 1`. -/
theorem list_filters_conjoined_witness :
    (buildWhere "USER" 1
      ⟨some "lo", some "alta", none, none, none, none, none, none⟩).userId
      = some 1 ∧
    matchesWhere (buildWhere "USER" 1
      ⟨some "lo", some "alta", none, none, none, none, none, none⟩)
      { id := 1, proyecto := "p", responsable := "r", titulo := "hello",
        descripcion := none, fechaVencimiento := none, fechaTerminada := none,
        prioridad := "alta", isCompleted := false, createdAt := 0,
        userId := 1 } = true := by
  have h := list_filters_conjoined_ownership_kept "USER" 1
    ⟨some "lo", some "alta", none, none, none, none, none, none⟩
    { id := 1, proyecto := "p", responsable := "r", titulo := "hello",
      descripcion := none, fechaVencimiento := none, fechaTerminada := none,
      prioridad := "alta", isCompleted := false, createdAt := 0, userId := 1 }
    (by decide)
  refine ⟨h.1, h.2.mpr ?_⟩
  refine ⟨rfl, ?_, ?_, ?_, ?_⟩
  · intro s hs
    left
    have hls : "lo" = s := by
      simpa [jsTruthyStrParam] using hs
    subst hls
    decide
  · intro s hs
    simpa [jsTruthyStrParam] using hs
  · intro s hs
    exact Option.noConfusion hs
  · intro s hs
    exact Option.noConfusion hs

end ZenMatrix
